import Mathlib

/-!
# Verification of the Shion-API event service

Shallow embedding of the event-persistence service of the Shion-API
repository (Go): the store operations of `internal/database/database.go`,
the payload validation of `internal/database/models.go`, and the HTTP
handlers of `internal/server/routes.go`.

Modelling choices, each noted at the definition it concerns:
* the SQLite `events` table is a list of rows in insertion order together
  with a counter that models the state of the UUID generator
  (`uuid.NewString` is modelled as an injective function of the counter);
* an `INSERT` fails exactly when the generated id collides with an existing
  primary key (the table is `events(id TEXT PRIMARY KEY, ...)`);
* `row.Scan` on a query that matched no row yields the no-row error
  (`sql.ErrNoRows`), modelled by `DBErr.noRows`;
* Go strings are Lean `String`s; the zero value of an absent JSON field is
  the empty string, as with `encoding/json`.
-/

set_option autoImplicit false

deriving instance DecidableEq for Except

namespace Shion

/-- The wire-level payload of `internal/database/models.go`: `EventEntry`
with fields `Type`, `Data` (both tagged `binding:"required"`) and
`Timestamp`.  An absent JSON field decodes to the empty string. -/
structure EventEntry where
  type : String
  data : String
  timestamp : String
deriving Repr, DecidableEq

/-- One row of the `events(id TEXT PRIMARY KEY, type, data, timestamp)`
table. -/
structure Row where
  id : String
  type : String
  data : String
  timestamp : String
deriving Repr, DecidableEq

/-- The store state: the `events` table as a list of rows in insertion
order, plus the state of the UUID generator (`uuid.NewString` is modelled
as `uuidString` applied to a counter that advances on every call). -/
structure DBState where
  rows : List Row
  nextUuid : Nat
deriving Repr, DecidableEq

/-- Model of `uuid.NewString`: the `n`-th string the generator produces. -/
def uuidString (n : Nat) : String :=
  "uuid-" ++ toString n

/-- Errors surfaced by the store layer. -/
inductive DBErr where
  /-- `sql.ErrNoRows`, produced by `row.Scan` when the query matched no
  row; this is the no-row condition the spec calls `NotFoundError`. -/
  | noRows
  /-- A failed `ExecContext` on insertion; in this pure model an insert
  fails exactly on a primary-key collision. -/
  | execFail
deriving Repr, DecidableEq

/-- The error text surfaced by `err.Error()` for each store error. -/
def dbErrMessage : DBErr → String
  | .noRows => "sql: no rows in result set"
  | .execFail => "UNIQUE constraint failed: events.ID"

/-- The row inserted for payload `e` when the UUID counter stands at `n`. -/
def mkRow (n : Nat) (e : EventEntry) : Row :=
  ⟨uuidString n, e.type, e.data, e.timestamp⟩

/-- `service.CreateEvent` (database.go lines 135-147): generate a fresh id
with `uuid.NewString`, `INSERT INTO events (ID, Type, Data, Timestamp)`,
and return the new id, or the error when the insert fails.  The insert
fails exactly when the generated id collides with an existing primary key;
the UUID generator advances either way. -/
def CreateEvent (st : DBState) (e : EventEntry) : DBState × Except DBErr String :=
  let newId := uuidString st.nextUuid
  if st.rows.any (fun r => r.id = newId) then
    ({ st with nextUuid := st.nextUuid + 1 }, .error .execFail)
  else
    ({ rows := st.rows ++ [mkRow st.nextUuid e], nextUuid := st.nextUuid + 1 }, .ok newId)

/-- `service.CreateEvents` (database.go lines 152-168): insert the entries
one by one in input order; on the first failing insert return that error
at once (`return nil, err`), leaving the rows inserted so far in place; on
success return the generated ids in order. -/
def CreateEvents (st : DBState) : List EventEntry → DBState × Except DBErr (List String)
  | [] => (st, .ok [])
  | e :: rest =>
    match CreateEvent st e with
    | (st1, .error err) => (st1, .error err)
    | (st1, .ok id) =>
      match CreateEvents st1 rest with
      | (st2, .ok ids) => (st2, .ok (id :: ids))
      | (st2, .error err) => (st2, .error err)

/-- `service.GetEvent` (database.go lines 172-186): `SELECT ... WHERE id = ?`
via `QueryRowContext` returns the first matching row; `row.Scan` surfaces
`sql.ErrNoRows` when there is none. -/
def GetEvent (st : DBState) (id : String) : Except DBErr Row :=
  match st.rows.find? (fun r => r.id = id) with
  | some r => .ok r
  | none => .error .noRows

/-- `service.GetEvents` (database.go lines 190-212): `SELECT ... FROM events`
with no filter, no limit and no ORDER BY; never fails in this pure model. -/
def GetEvents (st : DBState) : Except DBErr (List Row) :=
  .ok st.rows

/-- Modelled from the spec: `TursoDB.GetLatestEvents`, called by
`getEventsHandler` (routes.go line 126), is not under `src/` (only its
caller is).  Spec section 4.1: "a bounded variant `GetLatestEvents(max)`
returning at most `max` most-recent rows ordered by recency"; it "returns
an empty sequence (not an error) when no rows exist".  Recency is
insertion order, so the result is a prefix of the reversed table. -/
def GetLatestEvents (st : DBState) (max : Int) : Except DBErr (List Row) :=
  .ok ((st.rows.reverse).take max.toNat)

/-- Simulation of `CreateEvents`: index of the first entry whose insert
fails, if any. -/
def firstFailIndex (st : DBState) : List EventEntry → Option Nat
  | [] => none
  | e :: rest =>
    match CreateEvent st e with
    | (_, .error _) => some 0
    | (st1, .ok _) => (firstFailIndex st1 rest).map (· + 1)

/-- The rows a successful batch starting at UUID counter `n` appends. -/
def insertedRows : Nat → List EventEntry → List Row
  | _, [] => []
  | n, e :: rest => mkRow n e :: insertedRows (n + 1) rest

/-- The ids a successful batch of length `len` starting at counter `n`
returns: `uuidString n`, `uuidString (n+1)`, ... in order. -/
def assignedIds : Nat → Nat → List String
  | _, 0 => []
  | n, len + 1 => uuidString n :: assignedIds (n + 1) len

example : CreateEvent ⟨[], 0⟩ ⟨"login", "user=42", "t"⟩ =
    (⟨[⟨"uuid-0", "login", "user=42", "t"⟩], 1⟩, .ok "uuid-0") := by decide

example : GetEvent ⟨[⟨"uuid-0", "a", "b", "c"⟩], 1⟩ "uuid-0" =
    .ok ⟨"uuid-0", "a", "b", "c"⟩ := by decide

example : GetEvent (⟨[], 0⟩ : DBState) "missing" = .error .noRows := by decide

example : firstFailIndex ⟨[⟨"uuid-1", "a", "b", "c"⟩], 0⟩
    [⟨"x", "1", ""⟩, ⟨"y", "2", ""⟩, ⟨"z", "3", ""⟩] = some 1 := by decide

/-! ## Health check (database.go lines 74-121) -/

/-- `sql.DBStats` as read by `Health`.  The pool counters are modelled as
naturals: `database/sql` reports counts of connections and wait events,
which are never negative; `WaitDuration` is rendered as a string by
`.String()` and is opaque here. -/
structure DBStats where
  openConnections : Nat
  inUse : Nat
  idle : Nat
  waitCount : Nat
  waitDuration : String
  maxIdleClosed : Nat
  maxLifetimeClosed : Nat
deriving Repr, DecidableEq

/-- The final value of `stats["message"]` in the up branch of `Health`:
the message starts as the healthy default and each of the four threshold
checks overwrites it in turn, so the last condition that holds wins.
The divisions mirror `int64(dbStats.OpenConnections)/2`. -/
def healthMessage (d : DBStats) : String :=
  let m := "It\x27s healthy"
  let m := if d.openConnections > 40 then "The database is experiencing heavy load." else m
  let m := if d.waitCount > 1000 then "The database has a high number of wait events, indicating potential bottlenecks." else m
  let m := if d.maxIdleClosed > d.openConnections / 2 then "Many idle connections are being closed, consider revising the connection pool settings." else m
  if d.maxLifetimeClosed > d.openConnections / 2 then "Many connections are being closed due to max lifetime, consider increasing max lifetime or revising the connection usage pattern." else m

/-- The `stats` map `Health` builds in the up branch, with each key bound
to its final value (a Go map is unordered; this association list with
distinct keys models lookups into it). -/
def healthUpStats (d : DBStats) : List (String × String) :=
  [("status", "up"),
   ("message", healthMessage d),
   ("open_connections", toString d.openConnections),
   ("in_use", toString d.inUse),
   ("idle", toString d.idle),
   ("wait_count", toString d.waitCount),
   ("wait_duration", d.waitDuration),
   ("max_idle_closed", toString d.maxIdleClosed),
   ("max_lifetime_closed", toString d.maxLifetimeClosed)]

/-- The `stats` map built in the down branch of `Health` before
`log.Fatalf` runs. -/
def healthDownStats (pingErr : String) : List (String × String) :=
  [("status", "down"), ("error", "db down: " ++ pingErr)]

/-- Lookup in a stats map (`stats["key"]`). -/
def lookupStat (m : List (String × String)) (k : String) : Option String :=
  (m.find? (fun p => p.1 = k)).map (fun p => p.2)

/-- How a call to `service.Health` ends: `returned` hands the stats map to
the caller; `fatal` means `log.Fatalf` ran, terminating the process, so
the map (built but unreachable through the dead `return stats`) never
reaches the caller. -/
inductive HealthOutcome where
  | returned (stats : List (String × String))
  | fatal (stats : List (String × String))
deriving Repr, DecidableEq

/-- Whether a `Health` call actually returned to its caller. -/
def healthReturned : HealthOutcome → Bool
  | .returned _ => true
  | .fatal _ => false

/-- `service.Health` (database.go lines 74-121), parametrised by the
outcome of `PingContext`: `none` means the ping succeeded, `some e` that
it failed with error text `e`.  On failure the code fills the map with
`status = "down"` and the error, then calls `log.Fatalf`, so the function
never returns; on success it returns the stats map. -/
def Health (pingErr : Option String) (d : DBStats) : HealthOutcome :=
  match pingErr with
  | some e => .fatal (healthDownStats e)
  | none => .returned (healthUpStats d)

/-! ## HTTP layer (routes.go) -/

/-- The response bodies the handlers serialise with `c.JSON`. -/
inductive Body where
  /-- `gin.H` with an `error` key. -/
  | err (msg : String)
  /-- A single event, from `getEventHandler`. -/
  | event (e : Row)
  /-- An array of events (an explicit empty array when the list is empty,
  never null: `getEventsHandler` special-cases the empty slice). -/
  | events (es : List Row)
  /-- `EventResponse` of routes.go: a message plus the created entries. -/
  | eventResponse (message : String) (entries : List Row)
deriving Repr, DecidableEq

/-- An HTTP response: status code and JSON body. -/
abbrev Response := Nat × Body

/-- The part of `gin.Context` the handlers consult: the path parameters
extracted by the router from the matched route pattern, and the URL query
parameters. -/
structure GinCtx where
  pathParams : List (String × String)
  query : List (String × String)
deriving Repr, DecidableEq

/-- `c.Param(key)`: the value of a path parameter, the empty string when
the matched route declares no such parameter. -/
def ginParam (c : GinCtx) (k : String) : String :=
  match c.pathParams.find? (fun p => p.1 = k) with
  | some p => p.2
  | none => ""

/-- `c.DefaultQuery(key, default)`: the query value when the key is
present (even if its value is empty), otherwise the default. -/
def defaultQuery (c : GinCtx) (k d : String) : String :=
  match c.query.find? (fun p => p.1 = k) with
  | some p => p.2
  | none => d

/-- A segment of a gin route pattern: a literal, or a `:name` capture. -/
inductive Seg where
  | lit (s : String)
  | cap (s : String)
deriving Repr, DecidableEq

/-- The path parameters the gin router binds when a pattern matches a
concrete path: one `(name, value)` pair per capture segment. -/
def extractParams : List Seg → List String → List (String × String)
  | [], _ => []
  | _, [] => []
  | .lit _ :: ps, _ :: xs => extractParams ps xs
  | .cap n :: ps, x :: xs => (n, x) :: extractParams ps xs

/-- The route `RegisterRoutes` binds for GET events by id (routes.go line
53): `rootGroup.GET("/event", ...)` under the `/api/v1` group — three
literal segments and no capture. -/
def getEventRoutePattern : List Seg :=
  [.lit "api", .lit "v1", .lit "event"]

/-- The concrete request path of a GET /api/v1/event request. -/
def getEventRequestPath : List String :=
  ["api", "v1", "event"]

/-! ## strconv.Atoi -/

/-- The numeric value of a decimal digit list, most significant first. -/
def digitsToNat (cs : List Char) : Nat :=
  cs.foldl (fun acc c => acc * 10 + (c.toNat - 48)) 0

/-- Whether every character is a decimal digit. -/
def allDigits (cs : List Char) : Bool :=
  cs.all (fun c => c.isDigit)

/-- `strconv.Atoi`: an optional sign followed by at least one decimal
digit, nothing else; any other shape is a syntax error (`none`).  The
64-bit range check of the Go function is not modelled — every value the
handlers are verified on is far below it. -/
def atoi (s : String) : Option Int :=
  match s.toList with
  | [] => none
  | c :: rest =>
    if c = '-' then
      if !rest.isEmpty && allDigits rest then some (-(digitsToNat rest : Int)) else none
    else if c = '+' then
      if !rest.isEmpty && allDigits rest then some (digitsToNat rest : Int) else none
    else
      if allDigits (c :: rest) then some (digitsToNat (c :: rest) : Int) else none

example : atoi "50" = some 50 := by decide
example : atoi "abc" = none := by decide
example : atoi "" = none := by decide
example : atoi "-7" = some (-7) := by decide
example : atoi "12x" = none := by decide

/-! ## Handlers (routes.go) -/

/-- `c.ShouldBind` on an `EventEntry` payload: gin's `binding:"required"`
on `Type` and `Data` rejects a field left at its zero value, so a missing
or empty `type` or `data` is a binding error; `timestamp` is
unconstrained. -/
def shouldBindEvent (p : EventEntry) : Except String EventEntry :=
  if p.type = "" then
    .error "Key: EventEntry.Type Error:Field validation for Type failed on the required tag"
  else if p.data = "" then
    .error "Key: EventEntry.Data Error:Field validation for Data failed on the required tag"
  else
    .ok p

/-- `Server.incomingEventHandler` (routes.go lines 143-163): bind the
payload (400 with the error on failure, before the store is touched),
insert it (500 with the error on failure), and answer 200 with an
`EventResponse` echoing the persisted event.  The echoed entry carries the
assigned id and the payload's fields, per the spec's "the persisted event
(including its assigned id/timestamp echo)". -/
def incomingEventHandler (st : DBState) (p : EventEntry) : DBState × Response :=
  match shouldBindEvent p with
  | .error msg => (st, (400, .err msg))
  | .ok payload =>
    match CreateEvent st payload with
    | (st1, .error e) => (st1, (500, .err (dbErrMessage e)))
    | (st1, .ok id) =>
      (st1, (200, .eventResponse "Event successfully received!" [⟨id, payload.type, payload.data, payload.timestamp⟩]))

/-- `Server.getEventHandler` (routes.go lines 99-109): read the event id
with `c.Param("id")`, look it up, and answer 500 with the error text on
any failure, else 200 with the event.  The query string is never read. -/
def getEventHandler (st : DBState) (c : GinCtx) : Response :=
  let eventId := ginParam c "id"
  match GetEvent st eventId with
  | .error e => (500, .err (dbErrMessage e))
  | .ok ev => (200, .event ev)

/-- A GET /api/v1/event request as routed by `RegisterRoutes`: the router
matches `getEventRoutePattern` against the path, binds its captures (there
are none) as path parameters, and runs `getEventHandler`. -/
def serveGetEvent (st : DBState) (query : List (String × String)) : Response :=
  getEventHandler st ⟨extractParams getEventRoutePattern getEventRequestPath, query⟩

/-- `Server.getEventsHandler` (routes.go lines 114-138): `max` comes from
`c.DefaultQuery("max", "50")` (re-defaulted when present but empty); a
`strconv.Atoi` failure answers 500 — `http.StatusInternalServerError` —
with the error; then the latest `max` events are fetched and returned
with 200, an empty slice being serialised as an explicit empty array. -/
def getEventsHandler (st : DBState) (c : GinCtx) : Response :=
  let maxStr0 := defaultQuery c "max" "50"
  let maxStr := if maxStr0 = "" then "50" else maxStr0
  match atoi maxStr with
  | none => (500, .err ("strconv.Atoi: parsing " ++ maxStr ++ ": invalid syntax"))
  | some mx =>
    match GetLatestEvents st mx with
    | .error e => (500, .err (dbErrMessage e))
    | .ok events =>
      if events.length = 0 then (200, .events [])
      else (200, .events events)

example : getEventsHandler ⟨[], 0⟩ ⟨[], [("max", "abc")]⟩ =
    (500, .err "strconv.Atoi: parsing abc: invalid syntax") := by decide

example : getEventsHandler ⟨[], 0⟩ ⟨[], []⟩ = (200, .events []) := by decide

example : serveGetEvent ⟨[], 0⟩ [("id", "uuid-0")] =
    (500, .err "sql: no rows in result set") := by decide

/-! ## Concrete states used by the witnesses -/

/-- The pool statistics of the C8 scenario: no open connections and no
waits (both claimed thresholds unmet), one connection closed for
idleness. -/
def c8Stats : DBStats := ⟨0, 0, 0, 0, "0s", 1, 0⟩

/-- The store state of the C9 witness: three events in insertion order. -/
def c9Store : DBState :=
  ⟨[⟨"uuid-0", "a", "1", "t1"⟩, ⟨"uuid-1", "b", "2", "t2"⟩, ⟨"uuid-2", "c", "3", "t3"⟩], 3⟩

/-- The seeded store of the C6 witness: it already holds a row whose id
collides with the second id the generator will produce. -/
def c6Store : DBState := ⟨[⟨"uuid-1", "seed", "s", "t0"⟩], 0⟩

/-- The three-event batch of the C6 witness. -/
def c6Batch : List EventEntry := [⟨"a", "1", "t1"⟩, ⟨"b", "2", "t2"⟩, ⟨"c", "3", "t3"⟩]

/-! ## Helper lemmas about `CreateEvent` -/

/-- A failing `CreateEvent` is a primary-key collision: it leaves the
table unchanged and surfaces the exec failure. -/
theorem createEvent_error (st : DBState) (e : EventEntry) (st1 : DBState) (err : DBErr)
    (h : CreateEvent st e = (st1, .error err)) :
    err = .execFail ∧ st1.rows = st.rows ∧ st1.nextUuid = st.nextUuid + 1 := by
  by_cases hdup : st.rows.any (fun r => r.id = uuidString st.nextUuid)
  · simp only [CreateEvent, hdup, if_true, Prod.mk.injEq, Except.error.injEq] at h
    obtain ⟨h1, h2⟩ := h
    subst h2
    rw [← h1]
    exact ⟨rfl, rfl, rfl⟩
  · simp [CreateEvent, hdup] at h

/-- A successful `CreateEvent` appends exactly one row carrying the
freshly generated id and the payload's fields. -/
theorem createEvent_ok (st : DBState) (e : EventEntry) (st1 : DBState) (id : String)
    (h : CreateEvent st e = (st1, .ok id)) :
    st1 = ⟨st.rows ++ [mkRow st.nextUuid e], st.nextUuid + 1⟩ ∧
    id = uuidString st.nextUuid := by
  unfold CreateEvent at h
  dsimp only at h
  split at h
  · simp at h
  · simp only [Prod.mk.injEq, Except.ok.injEq] at h
    exact ⟨h.1.symm, h.2.symm⟩

/-- When the generated id is fresh, `CreateEvent` succeeds. -/
theorem createEvent_fresh_ok (st : DBState) (e : EventEntry)
    (hfresh : ∀ r ∈ st.rows, r.id ≠ uuidString st.nextUuid) :
    CreateEvent st e =
      (⟨st.rows ++ [mkRow st.nextUuid e], st.nextUuid + 1⟩, .ok (uuidString st.nextUuid)) := by
  unfold CreateEvent
  rw [if_neg]
  simp only [List.any_eq_true, not_exists, not_and]
  intro r hr
  simpa using hfresh r hr

/-! ## Theorems for the claims -/

/-- C2: a payload whose `type` or `data` is empty or absent is rejected by
`incomingEventHandler` with HTTP 400 (gin's required-tag binding error)
and the store state is untouched: validation happens before any store
call. -/
theorem c2_invalid_payload_rejected_store_untouched (st : DBState) (p : EventEntry)
    (h : p.type = "" ∨ p.data = "") :
    (incomingEventHandler st p).1 = st ∧
    ((incomingEventHandler st p).2).1 = 400 := by
  rcases h with h | h
  · simp [incomingEventHandler, shouldBindEvent, h]
  · by_cases ht : p.type = ""
    · simp [incomingEventHandler, shouldBindEvent, ht]
    · simp [incomingEventHandler, shouldBindEvent, ht, h]

/-- Witness for C2 at the concrete payload with empty `type`. -/
theorem c2_witness :
    (incomingEventHandler ⟨[], 0⟩ ⟨"", "user=42", "t"⟩).1 = (⟨[], 0⟩ : DBState) ∧
    ((incomingEventHandler ⟨[], 0⟩ ⟨"", "user=42", "t"⟩).2).1 = 400 :=
  c2_invalid_payload_rejected_store_untouched ⟨[], 0⟩ ⟨"", "user=42", "t"⟩ (Or.inl rfl)

/-- C4: `GetEvent` on an id held by no row fails with the no-row error
(`sql.ErrNoRows`), the condition the spec's taxonomy calls
`NotFoundError`. -/
theorem c4_missing_id_no_rows (st : DBState) (id : String)
    (h : ∀ r ∈ st.rows, r.id ≠ id) :
    GetEvent st id = .error .noRows := by
  unfold GetEvent
  rw [List.find?_eq_none.mpr]
  intro r hr
  simpa using h r hr

/-- Witness for C4: a store holding one event, queried for another id. -/
theorem c4_witness :
    GetEvent ⟨[⟨"uuid-0", "a", "b", "c"⟩], 1⟩ "uuid-9" = .error .noRows :=
  c4_missing_id_no_rows ⟨[⟨"uuid-0", "a", "b", "c"⟩], 1⟩ "uuid-9" (by decide)

/-- C5: the GET event route carries no path parameter, so
`c.Param("id")` in `getEventHandler` is always the empty string, and the
response of a GET /api/v1/event request does not depend on its query
string (in particular not on an `id` query parameter). -/
theorem c5_param_id_empty_query_ignored (st : DBState)
    (q q' : List (String × String)) :
    ginParam ⟨extractParams getEventRoutePattern getEventRequestPath, q⟩ "id" = "" ∧
    serveGetEvent st q = getEventHandler st ⟨[], q⟩ ∧
    serveGetEvent st q = serveGetEvent st q' :=
  ⟨rfl, rfl, rfl⟩

/-- C7 counterexample: with a failing ping, `Health` does not return to
its caller — `log.Fatalf` terminates the process first. -/
theorem c7_counterexample :
    healthReturned (Health (some "connection refused") ⟨0, 0, 0, 0, "0s", 0, 0⟩) = false := by
  decide

/-- C7 amended: on a failed ping, `Health` fills the stats map with
`status = "down"` and a non-empty `error` message, but ends in
`log.Fatalf`: the map is built yet never returned to the caller. -/
theorem c7_amended_down_fatal (e : String) (d : DBStats) :
    Health (some e) d = .fatal (healthDownStats e) ∧
    healthReturned (Health (some e) d) = false ∧
    lookupStat (healthDownStats e) "status" = some "down" ∧
    ∃ m, lookupStat (healthDownStats e) "error" = some m ∧ m ≠ "" := by
  refine ⟨rfl, rfl, rfl, "db down: " ++ e, rfl, ?_⟩
  intro h
  have h2 := congrArg String.length h
  rw [String.length_append] at h2
  have h9 : ("db down: ").length = 9 := rfl
  rw [h9] at h2
  simp at h2

/-- C1: a payload with non-empty `type` and `data`, submitted when the
generated UUID is fresh, is accepted with HTTP 200 echoing the persisted
event, and fetching the returned id yields an event whose `type`, `data`
and `timestamp` equal the input payload's. -/
theorem c1_submit_then_fetch_roundtrip (st : DBState) (p : EventEntry)
    (ht : p.type ≠ "") (hd : p.data ≠ "")
    (hfresh : ∀ r ∈ st.rows, r.id ≠ uuidString st.nextUuid) :
    (incomingEventHandler st p).2 =
      (200, .eventResponse "Event successfully received!"
        [⟨uuidString st.nextUuid, p.type, p.data, p.timestamp⟩]) ∧
    GetEvent (incomingEventHandler st p).1 (uuidString st.nextUuid) =
      .ok ⟨uuidString st.nextUuid, p.type, p.data, p.timestamp⟩ := by
  have hbind : shouldBindEvent p = .ok p := by
    unfold shouldBindEvent
    rw [if_neg ht, if_neg hd]
  have hce := createEvent_fresh_ok st p hfresh
  have hh : incomingEventHandler st p =
      (⟨st.rows ++ [mkRow st.nextUuid p], st.nextUuid + 1⟩,
        (200, .eventResponse "Event successfully received!"
          [⟨uuidString st.nextUuid, p.type, p.data, p.timestamp⟩])) := by
    simp only [incomingEventHandler, hbind, hce, mkRow]
  rw [hh]
  refine ⟨rfl, ?_⟩
  unfold GetEvent
  have hnone : st.rows.find? (fun r => r.id = uuidString st.nextUuid) = none :=
    List.find?_eq_none.mpr (fun r hr => by simpa using hfresh r hr)
  rw [List.find?_append, hnone]
  simp [mkRow, List.find?]

/-- Witness for C1: the spec's concrete scenario against an empty store. -/
theorem c1_witness :
    (incomingEventHandler ⟨[], 0⟩ ⟨"login", "user=42", "2024-01-01T00:00:00Z"⟩).2 =
      (200, .eventResponse "Event successfully received!"
        [⟨uuidString 0, "login", "user=42", "2024-01-01T00:00:00Z"⟩]) ∧
    GetEvent (incomingEventHandler ⟨[], 0⟩ ⟨"login", "user=42", "2024-01-01T00:00:00Z"⟩).1
        (uuidString 0) =
      .ok ⟨uuidString 0, "login", "user=42", "2024-01-01T00:00:00Z"⟩ :=
  c1_submit_then_fetch_roundtrip ⟨[], 0⟩ ⟨"login", "user=42", "2024-01-01T00:00:00Z"⟩
    (by decide) (by decide) (by decide)

/-- C3 counterexample: a non-numeric `max` makes `getEventsHandler`
answer HTTP 500 (`http.StatusInternalServerError`), not the 400 the claim
requires of a `ValidationError`. -/
theorem c3_counterexample :
    (getEventsHandler ⟨[], 0⟩ ⟨[], [("max", "abc")]⟩).1 = 500 ∧
    (getEventsHandler ⟨[], 0⟩ ⟨[], [("max", "abc")]⟩).1 ≠ 400 := by
  decide

/-- C3 amended: `max` defaults to 50 when absent, but a non-numeric
`max` fails with HTTP 500 carrying the `strconv.Atoi` error text, not
with a 400 validation response. -/
theorem c3_amended_default_50_malformed_500 (st : DBState) (q : List (String × String)) :
    (q.find? (fun pr => pr.1 = "max") = none →
      getEventsHandler st ⟨[], q⟩ = (200, .events ((st.rows.reverse).take 50))) ∧
    (∀ v, q.find? (fun pr => pr.1 = "max") = some v →
      atoi (if v.2 = "" then "50" else v.2) = none →
      getEventsHandler st ⟨[], q⟩ =
        (500, .err ("strconv.Atoi: parsing " ++ (if v.2 = "" then "50" else v.2) ++
          ": invalid syntax"))) := by
  constructor
  · intro hfind
    have h0 : defaultQuery ⟨[], q⟩ "max" "50" = "50" := by
      unfold defaultQuery
      rw [hfind]
    have ha : atoi "50" = some 50 := by decide
    have htn : (50 : Int).toNat = 50 := rfl
    simp only [getEventsHandler, h0, ite_self, ha, GetLatestEvents, htn]
    by_cases hlen : ((st.rows.reverse).take 50).length = 0
    · rw [if_pos hlen, List.length_eq_zero.mp hlen]
    · rw [if_neg hlen]
  · intro v hfind hbad
    have h0 : defaultQuery ⟨[], q⟩ "max" "50" = v.2 := by
      unfold defaultQuery
      rw [hfind]
    simp only [getEventsHandler, h0, hbad]

/-- Witness for C3: no `max` gives the 50-bounded list; `max=zz` gives
the 500 parse failure. -/
theorem c3_witness :
    getEventsHandler ⟨[], 0⟩ ⟨[], []⟩ = (200, .events []) ∧
    getEventsHandler ⟨[], 0⟩ ⟨[], [("max", "zz")]⟩ =
      (500, .err "strconv.Atoi: parsing zz: invalid syntax") :=
  ⟨(c3_amended_default_50_malformed_500 ⟨[], 0⟩ []).1 rfl,
   (c3_amended_default_50_malformed_500 ⟨[], 0⟩ [("max", "zz")]).2 ("max", "zz") rfl (by decide)⟩

/-- C10: `getEventsHandler` on an empty store answers HTTP 200 with an
explicit empty array — with the default `max` and with any `max` that
parses — never an error and never a null body. -/
theorem c10_empty_store_200_empty_array (k : Nat) (s : String) (mx : Int)
    (hs : atoi s = some mx) :
    getEventsHandler ⟨[], k⟩ ⟨[], []⟩ = (200, .events []) ∧
    getEventsHandler ⟨[], k⟩ ⟨[], [("max", s)]⟩ = (200, .events []) := by
  constructor
  · rfl
  · have hs0 : s ≠ "" := by
      intro h0
      rw [h0] at hs
      exact Option.noConfusion ((show atoi "" = none from rfl).symm.trans hs)
    have h0 : defaultQuery ⟨[], [("max", s)]⟩ "max" "50" = s := rfl
    simp only [getEventsHandler, h0, if_neg hs0, hs, GetLatestEvents]
    simp

/-- Witness for C10 at `max=50`. -/
theorem c10_witness :
    getEventsHandler ⟨[], 0⟩ ⟨[], []⟩ = (200, .events []) ∧
    getEventsHandler ⟨[], 0⟩ ⟨[], [("max", "50")]⟩ = (200, .events []) :=
  c10_empty_store_200_empty_array 0 "50" 50 (by decide)

/-- C8 counterexample: with both claimed thresholds unmet (0 open
connections, 0 waits) the up-branch message is the idle-closure warning,
not the healthy message the claim's "otherwise reporting healthy"
requires: the two closure checks also overwrite the message. -/
theorem c8_counterexample :
    c8Stats.openConnections ≤ 40 ∧ c8Stats.waitCount ≤ 1000 ∧
    lookupStat (healthUpStats c8Stats) "message" =
      some "Many idle connections are being closed, consider revising the connection pool settings." ∧
    lookupStat (healthUpStats c8Stats) "message" ≠ some "It\x27s healthy" := by
  decide

/-- C8 amended: on a successful ping `Health` returns `status = "up"`
with the pool counters (naturals, rendered in decimal) and a message
determined by four overwriting checks — heavy load above 40 open
connections, bottlenecks above 1000 waits, then the idle-closure and
lifetime-closure checks, the last condition that holds winning; only
when none holds does it report healthy. -/
theorem c8_amended_up_message_cascade (d : DBStats) :
    Health none d = .returned (healthUpStats d) ∧
    lookupStat (healthUpStats d) "status" = some "up" ∧
    lookupStat (healthUpStats d) "message" = some (healthMessage d) ∧
    lookupStat (healthUpStats d) "open_connections" = some (toString d.openConnections) ∧
    lookupStat (healthUpStats d) "wait_count" = some (toString d.waitCount) ∧
    (d.maxLifetimeClosed > d.openConnections / 2 →
      healthMessage d = "Many connections are being closed due to max lifetime, consider increasing max lifetime or revising the connection usage pattern.") ∧
    (d.maxLifetimeClosed ≤ d.openConnections / 2 → d.maxIdleClosed > d.openConnections / 2 →
      healthMessage d = "Many idle connections are being closed, consider revising the connection pool settings.") ∧
    (d.maxLifetimeClosed ≤ d.openConnections / 2 → d.maxIdleClosed ≤ d.openConnections / 2 →
      d.waitCount > 1000 →
      healthMessage d = "The database has a high number of wait events, indicating potential bottlenecks.") ∧
    (d.maxLifetimeClosed ≤ d.openConnections / 2 → d.maxIdleClosed ≤ d.openConnections / 2 →
      d.waitCount ≤ 1000 → d.openConnections > 40 →
      healthMessage d = "The database is experiencing heavy load.") ∧
    (d.maxLifetimeClosed ≤ d.openConnections / 2 → d.maxIdleClosed ≤ d.openConnections / 2 →
      d.waitCount ≤ 1000 → d.openConnections ≤ 40 →
      healthMessage d = "It\x27s healthy") := by
  refine ⟨rfl, rfl, rfl, rfl, rfl, ?_, ?_, ?_, ?_, ?_⟩
  · intro h1
    simp only [healthMessage]
    rw [if_pos h1]
  · intro h1 h2
    simp only [healthMessage]
    rw [if_neg (by omega), if_pos h2]
  · intro h1 h2 h3
    simp only [healthMessage]
    rw [if_neg (by omega), if_neg (by omega), if_pos h3]
  · intro h1 h2 h3 h4
    simp only [healthMessage]
    rw [if_neg (by omega), if_neg (by omega), if_neg (by omega), if_pos h4]
  · intro h1 h2 h3 h4
    simp only [healthMessage]
    rw [if_neg (by omega), if_neg (by omega), if_neg (by omega), if_neg (by omega)]

/-- Witness for C8: the counterexample statistics exercise the
idle-closure branch of the cascade. -/
theorem c8_witness :
    lookupStat (healthUpStats c8Stats) "status" = some "up" ∧
    healthMessage c8Stats =
      "Many idle connections are being closed, consider revising the connection pool settings." :=
  ⟨(c8_amended_up_message_cascade c8Stats).2.1,
   (c8_amended_up_message_cascade c8Stats).2.2.2.2.2.2.1 (by decide) (by decide)⟩

/-- C9: `GetLatestEvents` returns at most `max` items, and the items come
most-recent-first: the `i`-th returned item is the row inserted `i`-th
from the end of the table. -/
theorem c9_latest_bounded_most_recent_first (st : DBState) (mx : Int) (events : List Row)
    (h : GetLatestEvents st mx = .ok events) :
    events.length ≤ mx.toNat ∧
    ∀ i, i < events.length → events[i]? = st.rows[st.rows.length - 1 - i]? := by
  have he : events = (st.rows.reverse).take mx.toNat := by
    simp only [GetLatestEvents, Except.ok.injEq] at h
    exact h.symm
  subst he
  constructor
  · rw [List.length_take]
    exact Nat.min_le_left _ _
  · intro i hi
    have h1 : i < mx.toNat := by
      rw [List.length_take] at hi
      exact lt_of_lt_of_le hi (Nat.min_le_left _ _)
    have h2 : i < st.rows.length := by
      rw [List.length_take, Nat.lt_min] at hi
      simpa using hi.2
    rw [List.getElem?_take_of_lt h1, List.getElem?_reverse (by simpa using h2)]

/-- Witness for C9: fetching the latest 2 of 3 events returns at most 2
items and the first returned item is the last inserted row. -/
theorem c9_witness :
    ((c9Store.rows.reverse).take (Int.toNat 2)).length ≤ (2 : Int).toNat ∧
    ((c9Store.rows.reverse).take (Int.toNat 2))[0]? = c9Store.rows[2]? :=
  ⟨(c9_latest_bounded_most_recent_first c9Store 2 _ rfl).1,
   (c9_latest_bounded_most_recent_first c9Store 2 _ rfl).2 0 (by decide)⟩

/-- C6: `CreateEvents` processes the batch sequentially in input order.
If no insert fails, one row per input event is appended in input order
and the generated ids are returned in order.  If some insert fails,
processing stops at the first failing index `k`: the single exec error is
returned, and the table holds exactly the original rows plus the rows of
the first `k` inputs — the prefix persisted before the failure stays, with
no rollback. -/
theorem c6_batch_first_failure_no_rollback (st : DBState) (events : List EventEntry) :
    (firstFailIndex st events = none →
      (CreateEvents st events).2 = .ok (assignedIds st.nextUuid events.length) ∧
      (CreateEvents st events).1.rows = st.rows ++ insertedRows st.nextUuid events) ∧
    (∀ k, firstFailIndex st events = some k →
      k < events.length ∧
      (CreateEvents st events).2 = .error .execFail ∧
      (CreateEvents st events).1.rows = st.rows ++ insertedRows st.nextUuid (events.take k)) := by
  induction events generalizing st with
  | nil =>
    constructor
    · intro _
      simp [CreateEvents, insertedRows, assignedIds]
    · intro k hk
      simp [firstFailIndex] at hk
  | cons e rest ih =>
    cases hce : CreateEvent st e with
    | mk st1 res =>
      cases res with
      | error err =>
        obtain ⟨herr, hrows, _⟩ := createEvent_error st e st1 err hce
        subst herr
        constructor
        · intro hnone
          simp only [firstFailIndex, hce] at hnone
          exact Option.noConfusion hnone
        · intro k hk
          simp only [firstFailIndex, hce, Option.some.injEq] at hk
          subst hk
          refine ⟨Nat.succ_pos _, ?_, ?_⟩
          · simp only [CreateEvents, hce]
          · simp only [CreateEvents, hce, List.take_zero, insertedRows, List.append_nil]
            exact hrows
      | ok id =>
        obtain ⟨hst1, hid⟩ := createEvent_ok st e st1 id hce
        subst hst1
        subst hid
        constructor
        · intro hnone
          simp only [firstFailIndex, hce, Option.map_eq_none'] at hnone
          obtain ⟨hres, hrows⟩ := (ih _).1 hnone
          cases hrest : CreateEvents ⟨st.rows ++ [mkRow st.nextUuid e], st.nextUuid + 1⟩ rest with
          | mk st2 res2 =>
            rw [hrest] at hres hrows
            have hres2 : res2 = .ok (assignedIds (st.nextUuid + 1) rest.length) := hres
            subst hres2
            constructor
            · simp only [CreateEvents, hce, hrest, List.length_cons, assignedIds]
            · simp only [CreateEvents, hce, hrest, insertedRows]
              rw [hrows]
              simp [List.append_assoc]
        · intro k hk
          simp only [firstFailIndex, hce, Option.map_eq_some'] at hk
          obtain ⟨k', hfi, rfl⟩ := hk
          obtain ⟨hlt, herr2, hrows2⟩ := (ih _).2 k' hfi
          cases hrest : CreateEvents ⟨st.rows ++ [mkRow st.nextUuid e], st.nextUuid + 1⟩ rest with
          | mk st2 res2 =>
            rw [hrest] at herr2 hrows2
            have hres2 : res2 = .error .execFail := herr2
            subst hres2
            refine ⟨by simpa using Nat.succ_lt_succ hlt, ?_, ?_⟩
            · simp only [CreateEvents, hce, hrest]
            · simp only [CreateEvents, hce, hrest, List.take_succ_cons, insertedRows]
              rw [hrows2]
              simp [List.append_assoc]

/-- Witness for C6: the batch fails at index 1; the single error is
surfaced and exactly the first input's row stays persisted. -/
theorem c6_witness :
    (CreateEvents c6Store c6Batch).2 = .error .execFail ∧
    (CreateEvents c6Store c6Batch).1.rows =
      c6Store.rows ++ insertedRows c6Store.nextUuid (c6Batch.take 1) :=
  ⟨((c6_batch_first_failure_no_rollback c6Store c6Batch).2 1 (by decide)).2.1,
   ((c6_batch_first_failure_no_rollback c6Store c6Batch).2 1 (by decide)).2.2⟩

end Shion

